import Mathlib

/-!
Verification of the SizeDemo repository: a single header utility `Size.h`
exposing a generic compile-time array-size query `getSize`, plus a demo
sketch that prints the sizes of three fixed arrays.

The embedding models a C++ array reference `const Type (&)[size]` as a
function from indices to elements, the `sizeof` operator on element types
and array types, template-argument deduction at a `getSize` call site, the
machine representation of `std::size_t`, and the demo sketch's `loop`.
-/

namespace SizeDemo

/-- A reference to a C++ array of `size` elements of element type `Type'`,
i.e. the parameter type `const Type (&)[size]` of `getSize` in `src/Size.h`:
the array's contents, indexed by position. -/
def CppArrayRef (Type' : Type) (size : Nat) : Type := Fin size → Type'

/-- Embedding of `getSize` from `src/Size.h` (both preprocessor branches have
the same definition, only the spelling of `size_t` differs):

`template< typename Type, std::size_t size >`
`constexpr std::size_t getSize(const Type (&)[size]) noexcept { return size; }`

The parameter is unnamed; the body returns the deduced template parameter
`size`. -/
def getSize {Type' : Type} {size : Nat} (_array : CppArrayRef Type' size) : Nat :=
  size

/-- A C++ element type as the compiler sees it, carrying the byte count the
`sizeof` operator reports for it; a complete C++ object type has `sizeof`
at least 1. -/
structure CppElemType where
  sizeofElem : Nat
  sizeofElem_pos : 0 < sizeofElem

/-- The `char` type on AVR: one byte. -/
def charElem : CppElemType := ⟨1, Nat.one_pos⟩

/-- The `int` type on AVR: two bytes. -/
def intElem : CppElemType := ⟨2, Nat.zero_lt_two⟩

/-- The `uint8_t` type: one byte. -/
def uint8Elem : CppElemType := ⟨1, Nat.one_pos⟩

/-- The `sizeof` operator applied to the array type `Type[len]`: the element
count times the element's byte size. -/
def sizeofArrayType (elem : CppElemType) (len : Nat) : Nat :=
  len * elem.sizeofElem

/-- The sizeof-ratio template implementation shown in the repository's
document (the version it argues is redundant):

`template< typename Type, std::size_t size >`
`constexpr std::size_t getSize(const Type (&array)[size]) noexcept`
`{ return (sizeof(array) / sizeof(array[0])); }`

`sizeof(array)` is the whole array's byte size and `sizeof(array[0])` the
element's byte size. -/
def getSizeRatio (elem : CppElemType) (size : Nat) : Nat :=
  sizeofArrayType elem size / elem.sizeofElem

/-- The type of an argument expression at a call site, as overload
resolution sees it: a genuine array type, a pointer type, or some other
non-array value. -/
inductive CppArgType where
  | array (elem : CppElemType) (len : Nat)
  | pointer (pointee : CppElemType)
  | scalar (elem : CppElemType)

/-- Template-argument deduction for `getSize`'s parameter
`const Type (&)[size]`: deduction succeeds exactly on genuine array types,
binding `Type` to the element type and `size` to the array bound. A pointer
or other non-array argument cannot match an array reference parameter, so
deduction fails and the call does not compile. -/
def deduceGetSize : CppArgType → Option (CppElemType × Nat)
  | .array elem len => some (elem, len)
  | .pointer _ => none
  | .scalar _ => none

/-- The runtime value of the call `getSize(arg)` when it compiles: the
compiled specialisation's body is `return size`, so the value is the deduced
`size` parameter; `none` when deduction fails and there is no compiled call. -/
def callGetSize (arg : CppArgType) : Option Nat :=
  (deduceGetSize arg).map (fun p => p.2)

/-- The true element count of an argument: defined only for genuine arrays. -/
def argLength : CppArgType → Option Nat
  | .array _ len => some len
  | .pointer _ => none
  | .scalar _ => none

/-- Use of the query's result as another array's bound: an array whose
declared length is the value `getSize array`, as a compile-time constant
context requires. -/
def boundedByGetSize {Type' : Type} {size : Nat} (array : CppArrayRef Type' size) :
    CppArrayRef Bool (getSize array) :=
  fun _ => false

/-- Evaluation of `getSize`'s body in an error monad: the body is the single
statement `return size` (the function is `constexpr` and `noexcept`), which
is `Except.ok size`; no branch of the body can produce an error. -/
def getSizeEval {Type' : Type} {size : Nat} (_array : CppArrayRef Type' size) :
    Except String Nat :=
  Except.ok size

/-- The value of a `std::size_t` of bit width `w` holding mathematical value
`v`: machine unsigned integers are naturals reduced modulo `2 ^ w`. -/
def sizeTValue (w v : Nat) : Nat := v % 2 ^ w

/-- `getSize` as executed on a machine whose `std::size_t` has bit width `w`:
the deduced parameter `size` is itself a `std::size_t` value and the return
statement yields it at type `std::size_t`, with no intermediate conversion. -/
def getSizeOnMachine (w : Nat) {Type' : Type} {size : Nat}
    (_array : CppArrayRef Type' size) : Nat :=
  sizeTValue w size

/-- A call to `getSize` within a program with ambient state: the argument is
taken by const reference and the body mentions only the template parameter
`size`, so the call returns the ambient state, the argument's contents and
the result. -/
def getSizeCall {σ : Type} {Type' : Type} {size : Nat}
    (globals : σ) (array : CppArrayRef Type' size) :
    σ × CppArrayRef Type' size × Nat :=
  (globals, array, getSize array)

/-- One print event the demo sketch emits through the Arduboy2 library. -/
inductive PrintEvent where
  | text (s : String)
  | numberLine (n : Nat)
deriving DecidableEq

/-- The demo sketch's Arduboy2 state as `loop` uses it: whether `nextFrame()`
reports the next frame is due, and the print events drawn since `clear()`. -/
structure Arduboy where
  frameDue : Bool
  drawn : List PrintEvent

/-- `const char exampleA[8] PROGMEM {};` — eight zero-initialised chars. -/
def exampleA : CppArrayRef Char 8 := fun _ => Char.ofNat 0

/-- `const int exampleB[4] PROGMEM {};` — four zero-initialised ints. -/
def exampleB : CppArrayRef Int 4 := fun _ => 0

/-- `const uint8_t exampleC[10] PROGMEM {};` — ten zero-initialised bytes. -/
def exampleC : CppArrayRef (Fin 256) 10 := fun _ => 0

/-- Embedding of the sketch's `loop()`: when `nextFrame()` is false the
function returns early and emits nothing; otherwise it clears the screen,
prints the three labels and the three `getSize` results in order, and
displays. The result pairs the events emitted during this iteration with
the updated state. -/
def loop (a : Arduboy) : List PrintEvent × Arduboy :=
  if !a.frameDue then ([], a)
  else
    let events : List PrintEvent :=
      [ PrintEvent.text "exampleA: ", PrintEvent.numberLine (getSize exampleA),
        PrintEvent.text "exampleB: ", PrintEvent.numberLine (getSize exampleB),
        PrintEvent.text "exampleC: ", PrintEvent.numberLine (getSize exampleC) ]
    (events, Arduboy.mk a.frameDue events)

/-- The three label/value pairs one displayed frame of the demo prints. -/
def demoFrameEvents : List PrintEvent :=
  [ PrintEvent.text "exampleA: ", PrintEvent.numberLine 8,
    PrintEvent.text "exampleB: ", PrintEvent.numberLine 4,
    PrintEvent.text "exampleC: ", PrintEvent.numberLine 10 ]

/-- C1: for every element type `T` and every array length `N`, calling
`getSize` on an array of `N` elements of type `T` returns exactly `N`. -/
theorem getSize_eq_declared_length (T : Type) (N : Nat) (a : CppArrayRef T N) :
    getSize a = N :=
  rfl

/-- C2: a pointer argument fails template-argument deduction, so the call
does not compile; and whenever a `getSize` call does compile, its value is
the argument array's true element count — no compiling input yields an
incorrect runtime value. -/
theorem getSize_rejects_pointers_compile_time :
    (∀ t : CppElemType, callGetSize (CppArgType.pointer t) = none) ∧
    (∀ (arg : CppArgType) (n : Nat),
      callGetSize arg = some n → argLength arg = some n) := by
  constructor
  · intro t
    rfl
  · intro arg n h
    cases arg with
    | array elem len =>
        simpa [callGetSize, deduceGetSize, argLength] using h
    | pointer t =>
        simp [callGetSize, deduceGetSize] at h
    | scalar t =>
        simp [callGetSize, deduceGetSize] at h

/-- Witness for C2: the pointer call is rejected, and the compiling call on
`char[5]` reports the true length 5. -/
theorem getSize_rejects_pointers_compile_time_witness :
    callGetSize (CppArgType.pointer charElem) = none ∧
    argLength (CppArgType.array charElem 5) = some 5 :=
  ⟨getSize_rejects_pointers_compile_time.1 charElem,
   getSize_rejects_pointers_compile_time.2 (CppArgType.array charElem 5) 5 rfl⟩

/-- C3: for every element type and every length `N ≥ 1`, the ratio
`sizeof(array) / sizeof(array[0])` on a genuine array of `N` elements equals
`N`, hence the ratio implementation and the implementation returning the
deduced `size` parameter agree as functions on arrays. -/
theorem getSizeRatio_eq_getSize (elem : CppElemType) (N : Nat) (hN : 1 ≤ N)
    (T : Type) (a : CppArrayRef T N) :
    getSizeRatio elem N = N ∧ getSizeRatio elem N = getSize a := by
  have h : getSizeRatio elem N = N := by
    unfold getSizeRatio sizeofArrayType
    exact Nat.mul_div_cancel N elem.sizeofElem_pos
  exact ⟨h, h⟩

/-- Witness for C3: on `int[3]` the byte ratio `6 / 2` equals 3, as does the
deduced size. -/
theorem getSizeRatio_eq_getSize_witness :
    getSizeRatio intElem 3 = 3 ∧
    getSizeRatio intElem 3 = getSize (fun _ => (0 : Int) : CppArrayRef Int 3) :=
  getSizeRatio_eq_getSize intElem 3 (by decide) Int (fun _ => 0)

/-- C4: for every length `N` up to 300 — in particular `N = 0` — `getSize`
returns the declared length exactly. -/
theorem getSize_small_lengths_exact (T : Type) (N : Nat) (hN : N ≤ 300)
    (a : CppArrayRef T N) :
    getSize a = N :=
  rfl

/-- Witness for C4: the empty array of length 0 reports size 0. -/
theorem getSize_small_lengths_exact_witness :
    getSize (fun i => i.elim0 : CppArrayRef Nat 0) = 0 :=
  getSize_small_lengths_exact Nat 0 (by decide) (fun i => i.elim0)

/-- C5: the result of `getSize` depends only on the type-level parameters —
any two arrays of the same element type and length yield the identical
result — and the result serves as a compile-time constant bound for another
array, whose own `getSize` is again that value. -/
theorem getSize_compile_time_constant (T : Type) (N : Nat)
    (a b : CppArrayRef T N) :
    getSize a = getSize b ∧
    getSize (boundedByGetSize a) = getSize a ∧
    getSize a = N :=
  ⟨rfl, rfl, rfl⟩

/-- C6: `getSize` is pure and total: evaluating its body on any array
argument succeeds with the returned size and takes no error branch. -/
theorem getSize_pure_total (T : Type) (N : Nat) (a : CppArrayRef T N) :
    getSizeEval a = Except.ok (getSize a) ∧ (getSizeEval a).isOk = true :=
  ⟨rfl, rfl⟩

/-- C7: two independent arrays of element types `T` and `U` with the same
length `N` each independently report their own declared length; the two
template instantiations do not interfere. -/
theorem getSize_independent_instantiations (T U : Type) (N : Nat)
    (a : CppArrayRef T N) (b : CppArrayRef U N) :
    getSize a = N ∧ getSize b = N :=
  ⟨rfl, rfl⟩

/-- Counterexample to C8 as stated: on an iteration where `nextFrame()` is
false, `loop` returns early and prints nothing, so not every iteration
prints the three values. -/
theorem loop_skipped_frame_prints_nothing :
    (loop (Arduboy.mk false [])).1 = [] ∧
    ([] : List PrintEvent) ≠ demoFrameEvents := by
  constructor
  · rfl
  · decide

/-- C8 (amended): `getSize(exampleA) = 8`, `getSize(exampleB) = 4`,
`getSize(exampleC) = 10`, and every iteration of the demo loop in which
`nextFrame()` succeeds prints exactly these three labelled values in that
order; an iteration where `nextFrame()` fails prints nothing. -/
theorem loop_frame_prints_sizes :
    getSize exampleA = 8 ∧ getSize exampleB = 4 ∧ getSize exampleC = 10 ∧
    (∀ a : Arduboy, a.frameDue = true → (loop a).1 = demoFrameEvents) ∧
    (∀ a : Arduboy, a.frameDue = false → (loop a).1 = []) := by
  refine ⟨rfl, rfl, rfl, ?_, ?_⟩
  · intro a h
    simp [loop, h, demoFrameEvents, getSize]
  · intro a h
    simp [loop, h]

/-- Witness for C8: a frame-due iteration prints the three values, and a
skipped iteration prints nothing. -/
theorem loop_frame_prints_sizes_witness :
    (loop (Arduboy.mk true [])).1 = demoFrameEvents ∧
    (loop (Arduboy.mk false [])).1 = [] :=
  ⟨loop_frame_prints_sizes.2.2.2.1 (Arduboy.mk true []) rfl,
   loop_frame_prints_sizes.2.2.2.2 (Arduboy.mk false []) rfl⟩

/-- C9: the returned `std::size_t` is the deduced length with no truncation
or modular reduction: for every length representable in a width-`w`
`std::size_t`, the machine-level result equals the length exactly. -/
theorem getSize_no_truncation (w : Nat) (T : Type) (N : Nat) (hN : N < 2 ^ w)
    (a : CppArrayRef T N) :
    getSizeOnMachine w a = N :=
  Nat.mod_eq_of_lt hN

/-- Witness for C9: with a 16-bit `size_t`, a 10-element array reports 10. -/
theorem getSize_no_truncation_witness :
    getSizeOnMachine 16 (fun _ => (0 : Fin 256) : CppArrayRef (Fin 256) 10) = 10 :=
  getSize_no_truncation 16 (Fin 256) 10 (by decide) (fun _ => 0)

/-- C10: a `getSize` call leaves the ambient program state unchanged,
leaves the array's contents unchanged, and its result does not depend on
the ambient state. -/
theorem getSize_frame_condition (σ T : Type) (g g' : σ) (N : Nat)
    (a : CppArrayRef T N) :
    (getSizeCall g a).1 = g ∧
    (getSizeCall g a).2.1 = a ∧
    (getSizeCall g a).2.2 = (getSizeCall g' a).2.2 :=
  ⟨rfl, rfl, rfl⟩

end SizeDemo
